import Mathlib

/-!
Shallow embedding of the `SecurityAirlock` streaming filter
(`src/gateware/src/packet.py`, Amaranth HDL) and proofs of the spec's
claims about it.

Modelling conventions:
* every hardware register becomes a field of `State`; an 8/16/27/32-bit
  signal is a `Nat` kept in range by masking exactly where the hardware
  width forces a wrap;
* `m.d.comb` expressions become Bool/Nat functions of the current state
  and inputs;
* `m.d.sync` assignments become a pure `step` function.  Amaranth gives
  last-assignment-wins semantics with all right-hand sides and
  conditions evaluated on current values, so `step` threads an
  accumulator `n` through the statement regions in source order while
  every condition and right-hand side reads the original state `s`;
* bit slices `x[a:b]` become `x / 2^a % 2^(b-a)`, `Cat` becomes
  addition of shifted parts, and the one signed subtraction
  (`ip_len - 20`) is modelled in `Int`.
-/

namespace Airlock

set_option maxRecDepth 100000

/-- Construction-time parameters of `SecurityAirlock.__init__`. -/
structure Cfg where
  heartbeat_timeout : Nat
  volume_limit : Nat
deriving Repr, DecidableEq

/-- The default parameters (`heartbeat_timeout=25000000, volume_limit=99614720`). -/
def defCfg : Cfg := ⟨25000000, 99614720⟩

/-- `ARP_LEAK_INTERVAL = 10000`. -/
def ARP_LEAK_INTERVAL : Nat := 10000

/-- `ARP_BURST_LIMIT = 4000`. -/
def ARP_BURST_LIMIT : Nat := 4000

/-- Input signals sampled on one clock cycle. -/
structure Input where
  rx_data : Nat
  rx_valid : Bool
  rx_last : Bool
  tx_ready : Bool
  heartbeat_in : Bool
  rst_lock : Bool
  egress_mode : Bool
deriving Repr, DecidableEq

/-- All registers of the core (`m.d.sync` driven signals). -/
structure State where
  locked : Bool
  violation_volume : Bool
  violation_ttl : Bool
  violation_wg_size : Bool
  violation_plaintext : Bool
  violation_heartbeat : Bool
  violation_ethertype : Bool
  violation_arp_rate : Bool
  violation_ip_proto : Bool
  violation_arp_size : Bool
  violation_frag : Bool
  violation_ip_options : Bool
  violation_arp_opcode : Bool
  violation_land : Bool
  violation_loopback : Bool
  violation_tcp_flags : Bool
  violation_tcp_options : Bool
  violation_udp_len : Bool
  drop_current : Bool
  tcp_flags_high_bit : Bool
  watchdog_timer : Nat
  volume_cnt : Nat
  byte_ptr : Nat
  flush_state : Bool
  is_ip : Bool
  ip_len : Nat
  ip_hdr_len : Nat
  ttl : Nat
  src_ip : Nat
  dst_ip : Nat
  ip_proto : Nat
  udp_len_reg : Nat
  is_arp : Bool
  arp_bucket : Nat
  arp_leak_timer : Nat
  arp_opcode_high : Nat
  plaintext_cnt : Nat
  last_heartbeat : Bool
deriving Repr, DecidableEq

/-- Power-on state: Amaranth signals reset to their `init` values
(`flush_state` to 1, `ip_hdr_len` to 5, `watchdog_timer` to the
timeout, everything else to 0). -/
def initState (cfg : Cfg) : State where
  locked := false
  violation_volume := false
  violation_ttl := false
  violation_wg_size := false
  violation_plaintext := false
  violation_heartbeat := false
  violation_ethertype := false
  violation_arp_rate := false
  violation_ip_proto := false
  violation_arp_size := false
  violation_frag := false
  violation_ip_options := false
  violation_arp_opcode := false
  violation_land := false
  violation_loopback := false
  violation_tcp_flags := false
  violation_tcp_options := false
  violation_udp_len := false
  drop_current := false
  tcp_flags_high_bit := false
  watchdog_timer := cfg.heartbeat_timeout
  volume_cnt := 0
  byte_ptr := 0
  flush_state := true
  is_ip := false
  ip_len := 0
  ip_hdr_len := 5
  ttl := 0
  src_ip := 0
  dst_ip := 0
  ip_proto := 0
  udp_len_reg := 0
  is_arp := false
  arp_bucket := 0
  arp_leak_timer := 0
  arp_opcode_high := 0
  plaintext_cnt := 0
  last_heartbeat := false

/-- The 8-bit value carried by `rx_data` (the signal truncates to 8 bits). -/
def rxByte (i : Input) : Nat := i.rx_data % 256

/-- Write byte `k` (counting from the least significant byte) of `x`. -/
def setByte (x k v : Nat) : Nat :=
  x % 256 ^ k + v * 256 ^ k + x / 256 ^ (k + 1) * 256 ^ (k + 1)

/-- `traffic_violation`: OR of the 16 latched traffic flags (heartbeat excluded). -/
def traffic_violation (s : State) : Bool :=
  s.violation_volume || s.violation_ttl || s.violation_wg_size ||
  s.violation_plaintext || s.violation_ethertype || s.violation_arp_rate ||
  s.violation_ip_proto || s.violation_arp_size || s.violation_frag ||
  s.violation_ip_options || s.violation_arp_opcode || s.violation_land ||
  s.violation_loopback || s.violation_tcp_flags || s.violation_tcp_options ||
  s.violation_udp_len

/-- Rule 1 active: `byte_ptr == 13`. -/
def check_ethertype (s : State) : Bool := decide (s.byte_ptr = 13)

/-- Rule 1 allow: `is_ip & (rx_data ∈ {0x00, 0x06})`. -/
def allow_ethertype (s : State) (i : Input) : Bool :=
  s.is_ip && (decide (rxByte i = 0x00) || decide (rxByte i = 0x06))

/-- Rule 2 active: `is_ip & byte_ptr == 22`. -/
def check_ttl (s : State) : Bool := s.is_ip && decide (s.byte_ptr = 22)

/-- Rule 2 allow: `rx_data >= 60`. -/
def allow_ttl (i : Input) : Bool := decide (60 ≤ rxByte i)

/-- `header_end_ptr = 14 + (ip_hdr_len << 2) - 1`. -/
def header_end_ptr (s : State) : Nat := 14 + 4 * s.ip_hdr_len - 1

/-- Rule 3a active: `is_ip & byte_ptr == header_end_ptr & byte_ptr > 14`. -/
def check_min_size (s : State) : Bool :=
  s.is_ip && decide (s.byte_ptr = header_end_ptr s) && decide (14 < s.byte_ptr)

/-- Rule 3a allow: `ip_len >= 28 & (ip_proto != 6 | ip_len >= 40)`. -/
def allow_min_size (s : State) : Bool :=
  decide (28 ≤ s.ip_len) && (decide (s.ip_proto ≠ 6) || decide (40 ≤ s.ip_len))

/-- Rule 3b active: `is_ip & byte_ptr > 17 & byte_ptr >= 14 + ip_len & byte_ptr >= 64`. -/
def check_trailing (s : State) : Bool :=
  s.is_ip && decide (17 < s.byte_ptr) && decide (14 + s.ip_len ≤ s.byte_ptr) &&
  decide (64 ≤ s.byte_ptr)

/-- Rule 3b allow: never. -/
def allow_trailing : Bool := false

/-- Rule 3c active: `is_ip & rx_last`. -/
def check_truncation (s : State) (i : Input) : Bool := s.is_ip && i.rx_last

/-- Rule 3c allow: `byte_ptr >= 14 + ip_len - 1 & ip_len >= 28 & (ip_proto != 6 | ip_len >= 40)`. -/
def allow_truncation (s : State) : Bool :=
  decide (14 + s.ip_len - 1 ≤ s.byte_ptr) && decide (28 ≤ s.ip_len) &&
  (decide (s.ip_proto ≠ 6) || decide (40 ≤ s.ip_len))

/-- Rule 3d active: `rx_last & byte_ptr < 14` (never allowed). -/
def check_runt (s : State) (i : Input) : Bool := i.rx_last && decide (s.byte_ptr < 14)

/-- `is_printable`: 0x20–0x7E or LF, CR, TAB. -/
def is_printable (i : Input) : Bool :=
  (decide (0x20 ≤ rxByte i) && decide (rxByte i ≤ 0x7E)) ||
  decide (rxByte i = 0x0A) || decide (rxByte i = 0x0D) || decide (rxByte i = 0x09)

/-- Rule 4 active: `(is_ip | is_arp) & is_printable`. -/
def check_plaintext (s : State) (i : Input) : Bool :=
  (s.is_ip || s.is_arp) && is_printable i

/-- Rule 4 allow: `plaintext_cnt < 127`. -/
def allow_plaintext (s : State) : Bool := decide (s.plaintext_cnt < 127)

/-- Rule 5 active: always. -/
def check_volume : Bool := true

/-- Rule 5 allow: `volume_cnt < VOLUME_LIMIT`. -/
def allow_volume (cfg : Cfg) (s : State) : Bool := decide (s.volume_cnt < cfg.volume_limit)

/-- Rule 6 active: `is_arp`. -/
def check_arp_rate (s : State) : Bool := s.is_arp

/-- Rule 6 allow: `arp_bucket < ARP_BURST_LIMIT`. -/
def allow_arp_rate (s : State) : Bool := decide (s.arp_bucket < ARP_BURST_LIMIT)

/-- Rule 7 active: `is_ip & byte_ptr == 23`. -/
def check_protocol (s : State) : Bool := s.is_ip && decide (s.byte_ptr = 23)

/-- Rule 7 allow: `rx_data ∈ {6, 17}`. -/
def allow_protocol (i : Input) : Bool :=
  decide (rxByte i = 0x06) || decide (rxByte i = 0x11)

/-- Rule 8 active: `is_arp & byte_ptr > 63` (never allowed). -/
def check_arp_size (s : State) : Bool := s.is_arp && decide (63 < s.byte_ptr)

/-- Rule 9 active: `is_ip & byte_ptr == 20`. -/
def check_frag_flags (s : State) : Bool := s.is_ip && decide (s.byte_ptr = 20)

/-- Rule 9 allow: `(rx_data & 0xBF) == 0`. -/
def allow_frag_flags (i : Input) : Bool := decide (rxByte i &&& 0xBF = 0)

/-- Rule 9 active (offset byte): `is_ip & byte_ptr == 21`. -/
def check_frag_offset (s : State) : Bool := s.is_ip && decide (s.byte_ptr = 21)

/-- Rule 9 allow (offset byte): `rx_data == 0`. -/
def allow_frag_offset (i : Input) : Bool := decide (rxByte i = 0)

/-- Rule 10 active: `is_ip & byte_ptr == 14`. -/
def check_ip_options (s : State) : Bool := s.is_ip && decide (s.byte_ptr = 14)

/-- Rule 10 allow: `rx_data == 0x45`. -/
def allow_ip_options (i : Input) : Bool := decide (rxByte i = 0x45)

/-- Rule 11 active: `is_arp & byte_ptr == 21`. -/
def check_arp_opcode (s : State) : Bool := s.is_arp && decide (s.byte_ptr = 21)

/-- Rule 11 allow: `arp_opcode_high == 0 & rx_data ∈ {1, 2}`. -/
def allow_arp_opcode (s : State) (i : Input) : Bool :=
  decide (s.arp_opcode_high = 0) && (decide (rxByte i = 1) || decide (rxByte i = 2))

/-- Rule 12 active: `is_ip & byte_ptr == 33`. -/
def check_land (s : State) : Bool := s.is_ip && decide (s.byte_ptr = 33)

/-- Rule 12 allow: `src_ip != Cat(rx_data, dst_ip[8:32])`. -/
def allow_land (s : State) (i : Input) : Bool :=
  decide (s.src_ip ≠ rxByte i + 256 * (s.dst_ip / 256 % 16777216))

/-- Rule 13 active: `is_ip & byte_ptr ∈ {26, 30}`. -/
def check_loopback (s : State) : Bool :=
  s.is_ip && (decide (s.byte_ptr = 26) || decide (s.byte_ptr = 30))

/-- Rule 13 allow: `rx_data != 127`. -/
def allow_loopback (i : Input) : Bool := decide (rxByte i ≠ 127)

/-- Rule 14 active: `is_ip & ip_proto == 6 & byte_ptr == 46`. -/
def check_tcp_options (s : State) : Bool :=
  s.is_ip && decide (s.ip_proto = 6) && decide (s.byte_ptr = 46)

/-- Rule 14 allow: `rx_data == 0x50`. -/
def allow_tcp_options (i : Input) : Bool := decide (rxByte i = 0x50)

/-- Rule 15 active: `is_ip & ip_proto == 6 & byte_ptr == 47`. -/
def check_tcp_flags (s : State) : Bool :=
  s.is_ip && decide (s.ip_proto = 6) && decide (s.byte_ptr = 47)

/-- `full_tcp_flags = Cat(rx_data, tcp_flags_high_bit)`. -/
def full_tcp_flags (s : State) (i : Input) : Nat :=
  rxByte i + 256 * (if s.tcp_flags_high_bit then 1 else 0)

/-- Rule 15 allow: the eight whitelisted flag combinations. -/
def allow_tcp_flags (s : State) (i : Input) : Bool :=
  decide (full_tcp_flags s i = 0x002) || decide (full_tcp_flags s i = 0x012) ||
  decide (full_tcp_flags s i = 0x010) || decide (full_tcp_flags s i = 0x018) ||
  decide (full_tcp_flags s i = 0x001) || decide (full_tcp_flags s i = 0x011) ||
  decide (full_tcp_flags s i = 0x004) || decide (full_tcp_flags s i = 0x014)

/-- `full_udp_len_comb = Cat(rx_data, udp_len_reg[8:16])`. -/
def full_udp_len_comb (s : State) (i : Input) : Nat :=
  rxByte i + 256 * (s.udp_len_reg / 256 % 256)

/-- Rule 16 active: `is_ip & ip_proto == 17 & byte_ptr == 39`. -/
def check_udp_len (s : State) : Bool :=
  s.is_ip && decide (s.ip_proto = 17) && decide (s.byte_ptr = 39)

/-- Rule 16 allow: `full_udp_len >= 8 & full_udp_len == ip_len - 20`
(the subtraction is signed in the source, hence the `Int` comparison). -/
def allow_udp_len (s : State) (i : Input) : Bool :=
  decide (8 ≤ full_udp_len_comb s i) &&
  decide ((full_udp_len_comb s i : Int) = (s.ip_len : Int) - 20)

/-- `violation_now`: `rx_valid` AND the OR of all `check & ~allow` pairs. -/
def violation_now (cfg : Cfg) (s : State) (i : Input) : Bool :=
  i.rx_valid && (
    (check_ethertype s && !allow_ethertype s i) ||
    (check_ttl s && !allow_ttl i) ||
    (check_min_size s && !allow_min_size s) ||
    check_runt s i ||
    (check_trailing s && !allow_trailing) ||
    (check_truncation s i && !allow_truncation s) ||
    (check_plaintext s i && !allow_plaintext s) ||
    (check_volume && !allow_volume cfg s) ||
    (check_arp_rate s && !allow_arp_rate s) ||
    (check_protocol s && !allow_protocol i) ||
    (check_arp_size s && !false) ||
    (check_frag_flags s && !allow_frag_flags i) ||
    (check_frag_offset s && !allow_frag_offset i) ||
    (check_ip_options s && !allow_ip_options i) ||
    (check_arp_opcode s && !allow_arp_opcode s i) ||
    (check_land s && !allow_land s i) ||
    (check_loopback s && !allow_loopback i) ||
    (check_tcp_flags s && !allow_tcp_flags s i) ||
    (check_tcp_options s && !allow_tcp_options i) ||
    (check_udp_len s && !allow_udp_len s i))

/-- `any_violation = traffic_violation | violation_now`. -/
def any_violation (cfg : Cfg) (s : State) (i : Input) : Bool :=
  traffic_violation s || violation_now cfg s i

/-- `force_terminate = (drop_current | violation_now) & rx_last & ~locked`. -/
def force_terminate (cfg : Cfg) (s : State) (i : Input) : Bool :=
  (s.drop_current || violation_now cfg s i) && i.rx_last && !s.locked

/-- `gate_tx`: every reason to suppress forwarding on the current cycle. -/
def gate_tx (cfg : Cfg) (s : State) (i : Input) : Bool :=
  s.locked || s.drop_current || i.rst_lock || s.flush_state ||
  traffic_violation s || s.violation_heartbeat || violation_now cfg s i

/-- Combinational outputs of one cycle. -/
structure Output where
  tx_data : Nat
  tx_valid : Bool
  tx_last : Bool
  rx_ready : Bool
  status_led : Bool
deriving Repr, DecidableEq

/-- The egress/handshake outputs (`m.d.comb` block of section 2). -/
def outputs (cfg : Cfg) (s : State) (i : Input) : Output where
  tx_data := if force_terminate cfg s i then 0 else rxByte i
  tx_valid := (i.rx_valid && !gate_tx cfg s i) || force_terminate cfg s i
  tx_last := i.rx_last
  rx_ready := i.tx_ready || gate_tx cfg s i
  status_led := !s.locked

/-- `rx_fire = rx_valid & rx_ready`. -/
def rx_fire (cfg : Cfg) (s : State) (i : Input) : Bool :=
  i.rx_valid && (outputs cfg s i).rx_ready

/-- Global lock logic (source section 1): the `rst_lock` /
`violation_heartbeat` / `any_violation` priority chain.  `s` is the
current state read by all conditions, `n` the accumulated next state. -/
def phaseLock (cfg : Cfg) (s n : State) (i : Input) : State :=
  if i.rst_lock then
    { n with locked := false, drop_current := false, flush_state := true }
  else if s.violation_heartbeat then
    { n with locked := true }
  else if any_violation cfg s i then
    (if !i.egress_mode then { n with locked := true }
     else if !i.rx_last then { n with drop_current := true } else n)
  else n

/-- `If(flush_state & ~rx_valid): flush_state := 0` (clean idle observed). -/
def phaseFlushIdle (s n : State) (i : Input) : State :=
  if s.flush_state && !i.rx_valid then { n with flush_state := false } else n

/-- Per-frame latch/parser clearing common to the two end-of-frame
branches of the packet loop. -/
def clearFrame (n : State) : State :=
  { n with violation_ttl := false, violation_wg_size := false,
           violation_plaintext := false, violation_ethertype := false,
           violation_arp_rate := false, violation_ip_proto := false,
           violation_arp_size := false, violation_frag := false,
           violation_ip_options := false, violation_arp_opcode := false,
           violation_land := false, violation_loopback := false,
           violation_tcp_flags := false, violation_tcp_options := false,
           violation_udp_len := false,
           is_arp := false, drop_current := false, ip_proto := 0 }

/-- The flush / end-of-frame / pointer-advance branch of the packet loop
(source lines 276–321). -/
def phaseFrameEnd (s n : State) (i : Input) : State :=
  if s.flush_state then
    (if i.rx_last then
      clearFrame { n with flush_state := false, byte_ptr := 0, is_ip := false,
                          ip_len := 0, plaintext_cnt := 0 }
     else n)
  else if i.rx_last then
    let n := clearFrame { n with byte_ptr := 0, is_ip := false, ip_len := 0,
                                 plaintext_cnt := 0, ip_hdr_len := 5 }
    let n :=
      if (check_truncation s i && !allow_truncation s) || check_runt s i then
        (let n := { n with violation_wg_size := true }
         if !i.egress_mode then { n with locked := true } else n)
      else { n with violation_wg_size := false }
    if decide (s.byte_ptr < 13) then
      (if !i.egress_mode then { n with locked := true } else n)
    else n
  else
    if decide (s.byte_ptr < 0x1FFFF) then { n with byte_ptr := s.byte_ptr + 1 }
    else n

/-- Filtering logic, part 1 (source lines 326–337): volume latch and
IP detection state at bytes 12/13. -/
def phaseFilterEth (cfg : Cfg) (s n : State) (i : Input) : State :=
  let d := rxByte i
  let n := if check_volume && !allow_volume cfg s && !i.rx_last then
             { n with violation_volume := true } else n
  let n := if decide (s.byte_ptr = 12) && decide (d = 0x08) && !i.rx_last then
             { n with is_ip := true } else n
  if decide (s.byte_ptr = 13) && !i.rx_last then
    (let n := if decide (d ≠ 0x00) then { n with is_ip := false } else n
     let n := if check_ethertype s && !allow_ethertype s i then
                { n with violation_ethertype := true } else n
     if s.is_ip && decide (d = 0x06) then { n with is_arp := true } else n)
  else n

/-- Filtering logic, part 2 (source lines 340–346): ARP opcode capture,
bucket increment and the ARP latches. -/
def phaseFilterArp (s n : State) (i : Input) : State :=
  let d := rxByte i
  let n := if s.is_arp then
             (let n := if decide (s.byte_ptr = 20) then
                         { n with arp_opcode_high := d } else n
              let n := if check_arp_opcode s && !allow_arp_opcode s i && !i.rx_last then
                         { n with violation_arp_opcode := true } else n
              let n := if decide (s.arp_bucket < 0xFFFF) then
                         { n with arp_bucket := s.arp_bucket + 1 } else n
              if check_arp_rate s && !allow_arp_rate s && !i.rx_last then
                { n with violation_arp_rate := true } else n)
           else n
  if check_arp_size s && !i.rx_last then
    { n with violation_arp_size := true } else n

/-- Filtering logic, part 3 (source lines 350–367): IP header fields up
to the protocol capture (inside the `is_ip` block). -/
def phaseFilterIpHdr (s n : State) (i : Input) : State :=
  let d := rxByte i
  let n := if decide (s.byte_ptr = 14) then
             (let n := if decide (d / 16 % 16 ≠ 4) && !i.rx_last then
                         { n with violation_ethertype := true } else n
              let n := { n with ip_hdr_len := d % 16 }
              let n := if check_min_size s && !allow_min_size s && !i.rx_last then
                         { n with violation_wg_size := true } else n
              if check_ip_options s && !allow_ip_options i && !i.rx_last then
                { n with violation_ip_options := true } else n)
           else n
  let n := if decide (s.byte_ptr = 16) then
             { n with ip_len := setByte n.ip_len 1 d } else n
  let n := if decide (s.byte_ptr = 17) then
             { n with ip_len := setByte n.ip_len 0 d } else n
  let n := if decide (s.byte_ptr = 22) then
             (let n := { n with ttl := d }
              if check_ttl s && !allow_ttl i && !i.rx_last then
                { n with violation_ttl := true } else n)
           else n
  let n := if (check_min_size s && !allow_min_size s) ||
              (check_trailing s && !allow_trailing) then
             (if !i.rx_last then { n with violation_wg_size := true } else n)
           else n
  let n := if check_protocol s && !allow_protocol i && !i.rx_last then
             { n with violation_ip_proto := true } else n
  if decide (s.byte_ptr = 23) then { n with ip_proto := d } else n

/-- Filtering logic, part 4 (source lines 369–383): address captures,
UDP length and TCP high-bit captures, fragmentation latch (inside the
`is_ip` block). -/
def phaseFilterIpAddr (s n : State) (i : Input) : State :=
  let d := rxByte i
  let n := if decide (s.byte_ptr = 26) then
             { n with src_ip := setByte n.src_ip 3 d } else n
  let n := if decide (s.byte_ptr = 27) then
             { n with src_ip := setByte n.src_ip 2 d } else n
  let n := if decide (s.byte_ptr = 28) then
             { n with src_ip := setByte n.src_ip 1 d } else n
  let n := if decide (s.byte_ptr = 29) then
             { n with src_ip := setByte n.src_ip 0 d } else n
  let n := if decide (s.byte_ptr = 30) then
             { n with dst_ip := setByte n.dst_ip 3 d } else n
  let n := if decide (s.byte_ptr = 31) then
             { n with dst_ip := setByte n.dst_ip 2 d } else n
  let n := if decide (s.byte_ptr = 32) then
             { n with dst_ip := setByte n.dst_ip 1 d } else n
  let n := if decide (s.byte_ptr = 33) then
             { n with dst_ip := setByte n.dst_ip 0 d } else n
  let n := if decide (s.ip_proto = 17) && decide (s.byte_ptr = 38) then
             { n with udp_len_reg := setByte n.udp_len_reg 1 d } else n
  let n := if decide (s.ip_proto = 6) && decide (s.byte_ptr = 46) then
             { n with tcp_flags_high_bit := decide (d % 2 = 1) } else n
  if (check_frag_flags s && !allow_frag_flags i) ||
     (check_frag_offset s && !allow_frag_offset i) then
    (if !i.rx_last then { n with violation_frag := true } else n)
  else n

/-- Filtering logic, part 5 (source lines 386–399): plaintext counter
and the remaining per-byte latches (inside the `is_ip` block). -/
def phaseFilterIpTail (s n : State) (i : Input) : State :=
  let n := if decide (14 + s.ip_hdr_len * 4 - 1 < s.byte_ptr) then
             (let n :=
                if is_printable i then
                  (if decide (s.plaintext_cnt < 255) then
                     { n with plaintext_cnt := s.plaintext_cnt + 1 } else n)
                else
                  (if decide (0 < s.plaintext_cnt) then
                     { n with plaintext_cnt := s.plaintext_cnt - 1 } else n)
              if check_plaintext s i && !allow_plaintext s && !i.rx_last then
                { n with violation_plaintext := true } else n)
           else n
  let n := if check_land s && !allow_land s i && !i.rx_last then
             { n with violation_land := true } else n
  let n := if check_loopback s && !allow_loopback i && !i.rx_last then
             { n with violation_loopback := true } else n
  let n := if check_tcp_flags s && !allow_tcp_flags s i && !i.rx_last then
             { n with violation_tcp_flags := true } else n
  let n := if check_tcp_options s && !allow_tcp_options i && !i.rx_last then
             { n with violation_tcp_options := true } else n
  if check_udp_len s && !allow_udp_len s i && !i.rx_last then
    { n with violation_udp_len := true } else n

/-- Filtering logic (source section 4), assembled in source order; the
three IP sub-parts are gated on `is_ip`. -/
def phaseFilter (cfg : Cfg) (s n : State) (i : Input) : State :=
  let n := phaseFilterEth cfg s n i
  let n := phaseFilterArp s n i
  if s.is_ip then
    phaseFilterIpTail s (phaseFilterIpAddr s (phaseFilterIpHdr s n i) i) i
  else n

/-- Packet processing loop (source section 3): gated on
`rx_fire & ~locked`; increments `volume_cnt` (27-bit wrap), then runs
the frame-end branch and the filtering logic. -/
def phasePacket (cfg : Cfg) (s n : State) (i : Input) : State :=
  if rx_fire cfg s i && !s.locked then
    phaseFilter cfg s
      (phaseFrameEnd s { n with volume_cnt := (s.volume_cnt + 1) % 134217728 } i) i
  else n

/-- ARP leaky-bucket drain: increment `arp_leak_timer` (14-bit wrap);
once it reaches `ARP_LEAK_INTERVAL`, zero it and leak one token. -/
def phaseArpLeak (s n : State) : State :=
  let n := { n with arp_leak_timer := (s.arp_leak_timer + 1) % 16384 }
  if decide (ARP_LEAK_INTERVAL ≤ s.arp_leak_timer) then
    (let n := { n with arp_leak_timer := 0 }
     if decide (0 < s.arp_bucket) then { n with arp_bucket := s.arp_bucket - 1 }
     else n)
  else n

/-- Heartbeat watchdog (source section 5): edge detect, reload or
count down, latch `violation_heartbeat` at zero. -/
def phaseWatchdog (cfg : Cfg) (s n : State) (i : Input) : State :=
  let n := { n with last_heartbeat := i.heartbeat_in }
  if decide (i.heartbeat_in ≠ s.last_heartbeat) then
    { n with watchdog_timer := cfg.heartbeat_timeout }
  else if decide (0 < s.watchdog_timer) then
    { n with watchdog_timer := s.watchdog_timer - 1 }
  else
    { n with violation_heartbeat := true }

/-- Manual reset logic (source section 6): `rst_lock` clears the
violation latches, `drop_current`, the counters and part of the parser
state, and reloads the watchdog. -/
def phaseReset (cfg : Cfg) (n : State) (i : Input) : State :=
  if i.rst_lock then
    { n with violation_volume := false, violation_ttl := false,
             violation_wg_size := false, violation_plaintext := false,
             violation_heartbeat := false, violation_ethertype := false,
             violation_arp_rate := false, violation_ip_proto := false,
             violation_arp_size := false, violation_frag := false,
             violation_ip_options := false, violation_arp_opcode := false,
             violation_land := false, violation_loopback := false,
             violation_tcp_flags := false, violation_tcp_options := false,
             violation_udp_len := false, drop_current := false,
             watchdog_timer := cfg.heartbeat_timeout, volume_cnt := 0,
             arp_bucket := 0, byte_ptr := 0, is_ip := false, is_arp := false,
             plaintext_cnt := 0 }
  else n

/-- One synchronous clock step of `SecurityAirlock.elaborate`: the
`m.d.sync` regions applied in source order with last-assignment-wins
semantics; every condition and right-hand side reads the pre-step
state `s`. -/
def step (cfg : Cfg) (s : State) (i : Input) : State :=
  phaseReset cfg
    (phaseWatchdog cfg s
      (phaseArpLeak s
        (phasePacket cfg s
          (phaseFlushIdle s (phaseLock cfg s s i) i) i))
      i) i

/-- Run the core over a list of per-cycle inputs. -/
def run (cfg : Cfg) (s : State) (l : List Input) : State :=
  l.foldl (step cfg) s

/-- The per-cycle outputs produced while running over a list of inputs. -/
def runOutputs (cfg : Cfg) (s : State) : List Input → List Output
  | [] => []
  | i :: rest => outputs cfg s i :: runOutputs cfg (step cfg s i) rest

/-- Iterate `step` with one held input. -/
def stepN (cfg : Cfg) (i : Input) : Nat → State → State
  | 0, s => s
  | k + 1, s => stepN cfg i k (step cfg s i)

/-- An idle cycle: no ingress byte, `tx_ready` high, heartbeat edge. -/
def idleIn : Input :=
  { rx_data := 0, rx_valid := false, rx_last := false, tx_ready := true,
    heartbeat_in := true, rst_lock := false, egress_mode := false }

/-- The idle post-reset state: one idle cycle after power-on,
which clears `flush_state` (clean idle observed). -/
def idleState : State := step defCfg (initState defCfg) idleIn

/-- Ingress inputs feeding one frame byte per cycle with `tx_ready`
held high, `rst_lock` low and a toggling heartbeat; `rx_last` rides the
final byte. -/
def frameInputs (eg : Bool) : List Nat → Bool → List Input
  | [], _ => []
  | [b], hb =>
    [{ rx_data := b, rx_valid := true, rx_last := true, tx_ready := true,
       heartbeat_in := hb, rst_lock := false, egress_mode := eg }]
  | b :: rest, hb =>
    { rx_data := b, rx_valid := true, rx_last := false, tx_ready := true,
      heartbeat_in := hb, rst_lock := false, egress_mode := eg } ::
    frameInputs eg rest (!hb)

/-- The egress samples a fully forwarded frame must show: each byte
echoed with `tx_valid`, `last` on the final byte, `rx_ready` high and
the status LED on. -/
def echoOutputs : List Nat → List Output
  | [] => []
  | [b] => [{ tx_data := b, tx_valid := true, tx_last := true,
              rx_ready := true, status_led := true }]
  | b :: rest =>
    { tx_data := b, tx_valid := true, tx_last := false,
      rx_ready := true, status_led := true } :: echoOutputs rest

/-- The literal scenario-1 frame of the spec: 14 zero Ethernet-header
bytes, the given IPv4 header, and 20 TCP bytes that are zero apart from
data-offset `0x50` and flags `0x02`. -/
def scenario1Bytes : List Nat :=
  List.replicate 14 0 ++
  [0x45, 0x00, 0x00, 0x28, 0x00, 0x00, 0x00, 0x00, 0x40, 0x06,
   0x00, 0x00, 0x01, 0x02, 0x03, 0x04, 0x05, 0x06, 0x07, 0x08] ++
  (List.replicate 12 0 ++ [0x50, 0x02] ++ List.replicate 6 0)

/-- The scenario-1 frame with a well-formed EtherType: bytes 12–13 are
`08 00` (IPv4) instead of zero, everything else as in the spec. -/
def scenario1FixedBytes : List Nat :=
  List.replicate 12 0 ++ [0x08, 0x00] ++
  [0x45, 0x00, 0x00, 0x28, 0x00, 0x00, 0x00, 0x00, 0x40, 0x06,
   0x00, 0x00, 0x01, 0x02, 0x03, 0x04, 0x05, 0x06, 0x07, 0x08] ++
  (List.replicate 12 0 ++ [0x50, 0x02] ++ List.replicate 6 0)

/-- A minimal well-formed 42-byte ARP frame: zero MACs, EtherType
`0x0806`, opcode 1 (request), zero elsewhere. -/
def arpFrameBytes : List Nat :=
  List.replicate 12 0 ++ [0x08, 0x06] ++
  List.replicate 6 0 ++ [0x00, 0x01] ++ List.replicate 20 0

/-- Mid-frame ingress bytes: like `frameInputs` but without a final
`rx_last`, for feeding a frame prefix. -/
def midInputs (eg : Bool) : List Nat → Bool → List Input
  | [], _ => []
  | b :: rest, hb =>
    { rx_data := b, rx_valid := true, rx_last := false, tx_ready := true,
      heartbeat_in := hb, rst_lock := false, egress_mode := eg } ::
    midInputs eg rest (!hb)

/-- A one-byte frame (a runt: `rx_last` with `byte_ptr < 14`). -/
def runtIn : Input :=
  { rx_data := 0, rx_valid := false, rx_last := true, tx_ready := true,
    heartbeat_in := false, rst_lock := false, egress_mode := false }

/-- The one-byte runt frame with `rx_valid` actually asserted. -/
def runtValidIn : Input :=
  { rx_data := 0, rx_valid := true, rx_last := true, tx_ready := true,
    heartbeat_in := false, rst_lock := false, egress_mode := false }

/-- A manual-reset cycle with no ingress byte. -/
def rstIn : Input :=
  { rx_data := 0, rx_valid := false, rx_last := false, tx_ready := true,
    heartbeat_in := false, rst_lock := true, egress_mode := false }

/-- A manual-reset cycle on which a one-byte runt frame also fires. -/
def rstRuntIn : Input :=
  { rx_data := 0, rx_valid := true, rx_last := true, tx_ready := true,
    heartbeat_in := false, rst_lock := true, egress_mode := false }

/-- Running a concatenated input list runs the two segments in order. -/
theorem run_append (cfg : Cfg) (s : State) (l1 l2 : List Input) :
    run cfg s (l1 ++ l2) = run cfg (run cfg s l1) l2 := by
  simp [run, List.foldl_append]

/-- Any traffic violation (latched or current) asserts `gate_tx`. -/
theorem gate_tx_of_any (cfg : Cfg) (s : State) (i : Input)
    (h : any_violation cfg s i = true) : gate_tx cfg s i = true := by
  unfold any_violation at h
  cases h1 : traffic_violation s
  case true => simp [gate_tx, h1]
  case false =>
    have h2 : violation_now cfg s i = true := by simpa [h1] using h
    simp [gate_tx, h2]

/-- One-step lock stickiness: with `rst_lock` low, a locked core stays
locked (the only assignment driving `locked` low is in the `rst_lock`
branch, and the packet loop is gated on `~locked`). -/
theorem locked_sticky_step (cfg : Cfg) (s : State) (i : Input)
    (h : s.locked = true) (hr : i.rst_lock = false) :
    (step cfg s i).locked = true := by
  simp only [step, phaseReset, phaseWatchdog, phaseArpLeak, phasePacket, phaseFlushIdle,
    phaseLock, hr, h, Bool.false_eq_true, if_false, Bool.not_true, Bool.and_false,
    apply_ite State.locked, ite_self]

/-- Projection toolkit: one small lemma per phase and per field keeps
every stored proof term shallow. -/
def guardView (x : State) : List Bool :=
  [x.locked, x.drop_current, x.violation_ttl, x.violation_plaintext,
   x.violation_ethertype, x.violation_arp_rate, x.violation_ip_proto,
   x.violation_arp_size, x.violation_frag, x.violation_ip_options,
   x.violation_arp_opcode, x.violation_land, x.violation_loopback,
   x.violation_tcp_flags, x.violation_tcp_options, x.violation_udp_len,
   x.violation_volume, x.violation_heartbeat, x.violation_wg_size]

theorem clearFrame_violation_heartbeat (n : State) : (clearFrame n).violation_heartbeat = n.violation_heartbeat := rfl

theorem clearFrame_watchdog_timer (n : State) : (clearFrame n).watchdog_timer = n.watchdog_timer := rfl

theorem clearFrame_last_heartbeat (n : State) : (clearFrame n).last_heartbeat = n.last_heartbeat := rfl

theorem phaseLock_violation_heartbeat (cfg : Cfg) (s n : State) (i : Input) :
    (phaseLock cfg s n i).violation_heartbeat = n.violation_heartbeat := by
  simp only [phaseLock, apply_ite State.violation_heartbeat, ite_self]

theorem phaseFlushIdle_violation_heartbeat (s n : State) (i : Input) :
    (phaseFlushIdle s n i).violation_heartbeat = n.violation_heartbeat := by
  simp only [phaseFlushIdle, apply_ite State.violation_heartbeat, ite_self]

theorem phaseFilterEth_violation_heartbeat (cfg : Cfg) (s n : State) (i : Input) :
    (phaseFilterEth cfg s n i).violation_heartbeat = n.violation_heartbeat := by
  simp only [phaseFilterEth, apply_ite State.violation_heartbeat, ite_self]

theorem phaseFilterArp_violation_heartbeat (s n : State) (i : Input) :
    (phaseFilterArp s n i).violation_heartbeat = n.violation_heartbeat := by
  simp only [phaseFilterArp, apply_ite State.violation_heartbeat, ite_self]

theorem phaseFilterIpHdr_violation_heartbeat (s n : State) (i : Input) :
    (phaseFilterIpHdr s n i).violation_heartbeat = n.violation_heartbeat := by
  simp only [phaseFilterIpHdr, apply_ite State.violation_heartbeat, ite_self]

theorem phaseFilterIpAddr_violation_heartbeat (s n : State) (i : Input) :
    (phaseFilterIpAddr s n i).violation_heartbeat = n.violation_heartbeat := by
  simp only [phaseFilterIpAddr, apply_ite State.violation_heartbeat, ite_self]

theorem phaseFilterIpTail_violation_heartbeat (s n : State) (i : Input) :
    (phaseFilterIpTail s n i).violation_heartbeat = n.violation_heartbeat := by
  simp only [phaseFilterIpTail, apply_ite State.violation_heartbeat, ite_self]

theorem phaseFrameEnd_violation_heartbeat (s n : State) (i : Input) :
    (phaseFrameEnd s n i).violation_heartbeat = n.violation_heartbeat := by
  simp only [phaseFrameEnd, clearFrame_violation_heartbeat, apply_ite State.violation_heartbeat, ite_self]

theorem phaseFilter_violation_heartbeat (cfg : Cfg) (s n : State) (i : Input) :
    (phaseFilter cfg s n i).violation_heartbeat = n.violation_heartbeat := by
  simp only [phaseFilter, phaseFilterEth_violation_heartbeat, phaseFilterArp_violation_heartbeat, phaseFilterIpHdr_violation_heartbeat, phaseFilterIpAddr_violation_heartbeat, phaseFilterIpTail_violation_heartbeat, apply_ite State.violation_heartbeat, ite_self]

theorem phasePacket_violation_heartbeat (cfg : Cfg) (s n : State) (i : Input) :
    (phasePacket cfg s n i).violation_heartbeat = n.violation_heartbeat := by
  simp only [phasePacket, phaseFilter_violation_heartbeat, phaseFrameEnd_violation_heartbeat, apply_ite State.violation_heartbeat, ite_self]

theorem phaseArpLeak_violation_heartbeat (s n : State) :
    (phaseArpLeak s n).violation_heartbeat = n.violation_heartbeat := by
  simp only [phaseArpLeak, apply_ite State.violation_heartbeat, ite_self]

theorem phaseLock_watchdog_timer (cfg : Cfg) (s n : State) (i : Input) :
    (phaseLock cfg s n i).watchdog_timer = n.watchdog_timer := by
  simp only [phaseLock, apply_ite State.watchdog_timer, ite_self]

theorem phaseFlushIdle_watchdog_timer (s n : State) (i : Input) :
    (phaseFlushIdle s n i).watchdog_timer = n.watchdog_timer := by
  simp only [phaseFlushIdle, apply_ite State.watchdog_timer, ite_self]

theorem phaseFilterEth_watchdog_timer (cfg : Cfg) (s n : State) (i : Input) :
    (phaseFilterEth cfg s n i).watchdog_timer = n.watchdog_timer := by
  simp only [phaseFilterEth, apply_ite State.watchdog_timer, ite_self]

theorem phaseFilterArp_watchdog_timer (s n : State) (i : Input) :
    (phaseFilterArp s n i).watchdog_timer = n.watchdog_timer := by
  simp only [phaseFilterArp, apply_ite State.watchdog_timer, ite_self]

theorem phaseFilterIpHdr_watchdog_timer (s n : State) (i : Input) :
    (phaseFilterIpHdr s n i).watchdog_timer = n.watchdog_timer := by
  simp only [phaseFilterIpHdr, apply_ite State.watchdog_timer, ite_self]

theorem phaseFilterIpAddr_watchdog_timer (s n : State) (i : Input) :
    (phaseFilterIpAddr s n i).watchdog_timer = n.watchdog_timer := by
  simp only [phaseFilterIpAddr, apply_ite State.watchdog_timer, ite_self]

theorem phaseFilterIpTail_watchdog_timer (s n : State) (i : Input) :
    (phaseFilterIpTail s n i).watchdog_timer = n.watchdog_timer := by
  simp only [phaseFilterIpTail, apply_ite State.watchdog_timer, ite_self]

theorem phaseFrameEnd_watchdog_timer (s n : State) (i : Input) :
    (phaseFrameEnd s n i).watchdog_timer = n.watchdog_timer := by
  simp only [phaseFrameEnd, clearFrame_watchdog_timer, apply_ite State.watchdog_timer, ite_self]

theorem phaseFilter_watchdog_timer (cfg : Cfg) (s n : State) (i : Input) :
    (phaseFilter cfg s n i).watchdog_timer = n.watchdog_timer := by
  simp only [phaseFilter, phaseFilterEth_watchdog_timer, phaseFilterArp_watchdog_timer, phaseFilterIpHdr_watchdog_timer, phaseFilterIpAddr_watchdog_timer, phaseFilterIpTail_watchdog_timer, apply_ite State.watchdog_timer, ite_self]

theorem phasePacket_watchdog_timer (cfg : Cfg) (s n : State) (i : Input) :
    (phasePacket cfg s n i).watchdog_timer = n.watchdog_timer := by
  simp only [phasePacket, phaseFilter_watchdog_timer, phaseFrameEnd_watchdog_timer, apply_ite State.watchdog_timer, ite_self]

theorem phaseArpLeak_watchdog_timer (s n : State) :
    (phaseArpLeak s n).watchdog_timer = n.watchdog_timer := by
  simp only [phaseArpLeak, apply_ite State.watchdog_timer, ite_self]

theorem phaseLock_last_heartbeat (cfg : Cfg) (s n : State) (i : Input) :
    (phaseLock cfg s n i).last_heartbeat = n.last_heartbeat := by
  simp only [phaseLock, apply_ite State.last_heartbeat, ite_self]

theorem phaseFlushIdle_last_heartbeat (s n : State) (i : Input) :
    (phaseFlushIdle s n i).last_heartbeat = n.last_heartbeat := by
  simp only [phaseFlushIdle, apply_ite State.last_heartbeat, ite_self]

theorem phaseFilterEth_last_heartbeat (cfg : Cfg) (s n : State) (i : Input) :
    (phaseFilterEth cfg s n i).last_heartbeat = n.last_heartbeat := by
  simp only [phaseFilterEth, apply_ite State.last_heartbeat, ite_self]

theorem phaseFilterArp_last_heartbeat (s n : State) (i : Input) :
    (phaseFilterArp s n i).last_heartbeat = n.last_heartbeat := by
  simp only [phaseFilterArp, apply_ite State.last_heartbeat, ite_self]

theorem phaseFilterIpHdr_last_heartbeat (s n : State) (i : Input) :
    (phaseFilterIpHdr s n i).last_heartbeat = n.last_heartbeat := by
  simp only [phaseFilterIpHdr, apply_ite State.last_heartbeat, ite_self]

theorem phaseFilterIpAddr_last_heartbeat (s n : State) (i : Input) :
    (phaseFilterIpAddr s n i).last_heartbeat = n.last_heartbeat := by
  simp only [phaseFilterIpAddr, apply_ite State.last_heartbeat, ite_self]

theorem phaseFilterIpTail_last_heartbeat (s n : State) (i : Input) :
    (phaseFilterIpTail s n i).last_heartbeat = n.last_heartbeat := by
  simp only [phaseFilterIpTail, apply_ite State.last_heartbeat, ite_self]

theorem phaseFrameEnd_last_heartbeat (s n : State) (i : Input) :
    (phaseFrameEnd s n i).last_heartbeat = n.last_heartbeat := by
  simp only [phaseFrameEnd, clearFrame_last_heartbeat, apply_ite State.last_heartbeat, ite_self]

theorem phaseFilter_last_heartbeat (cfg : Cfg) (s n : State) (i : Input) :
    (phaseFilter cfg s n i).last_heartbeat = n.last_heartbeat := by
  simp only [phaseFilter, phaseFilterEth_last_heartbeat, phaseFilterArp_last_heartbeat, phaseFilterIpHdr_last_heartbeat, phaseFilterIpAddr_last_heartbeat, phaseFilterIpTail_last_heartbeat, apply_ite State.last_heartbeat, ite_self]

theorem phasePacket_last_heartbeat (cfg : Cfg) (s n : State) (i : Input) :
    (phasePacket cfg s n i).last_heartbeat = n.last_heartbeat := by
  simp only [phasePacket, phaseFilter_last_heartbeat, phaseFrameEnd_last_heartbeat, apply_ite State.last_heartbeat, ite_self]

theorem phaseArpLeak_last_heartbeat (s n : State) :
    (phaseArpLeak s n).last_heartbeat = n.last_heartbeat := by
  simp only [phaseArpLeak, apply_ite State.last_heartbeat, ite_self]

theorem phaseReset_last_heartbeat (cfg : Cfg) (n : State) (i : Input) :
    (phaseReset cfg n i).last_heartbeat = n.last_heartbeat := by
  simp only [phaseReset, apply_ite State.last_heartbeat, ite_self]

theorem clearFrame_locked (n : State) : (clearFrame n).locked = n.locked := rfl

theorem phaseFilterEth_locked (cfg : Cfg) (s n : State) (i : Input) :
    (phaseFilterEth cfg s n i).locked = n.locked := by
  simp only [phaseFilterEth, apply_ite State.locked, ite_self]

theorem phaseFilterArp_locked (s n : State) (i : Input) :
    (phaseFilterArp s n i).locked = n.locked := by
  simp only [phaseFilterArp, apply_ite State.locked, ite_self]

theorem phaseFilterIpHdr_locked (s n : State) (i : Input) :
    (phaseFilterIpHdr s n i).locked = n.locked := by
  simp only [phaseFilterIpHdr, apply_ite State.locked, ite_self]

theorem phaseFilterIpAddr_locked (s n : State) (i : Input) :
    (phaseFilterIpAddr s n i).locked = n.locked := by
  simp only [phaseFilterIpAddr, apply_ite State.locked, ite_self]

theorem phaseFilterIpTail_locked (s n : State) (i : Input) :
    (phaseFilterIpTail s n i).locked = n.locked := by
  simp only [phaseFilterIpTail, apply_ite State.locked, ite_self]

theorem phaseFilter_locked (cfg : Cfg) (s n : State) (i : Input) :
    (phaseFilter cfg s n i).locked = n.locked := by
  simp only [phaseFilter, phaseFilterEth_locked, phaseFilterArp_locked, phaseFilterIpHdr_locked, phaseFilterIpAddr_locked, phaseFilterIpTail_locked, apply_ite State.locked, ite_self]

theorem phaseFlushIdle_locked (s n : State) (i : Input) :
    (phaseFlushIdle s n i).locked = n.locked := by
  simp only [phaseFlushIdle, apply_ite State.locked, ite_self]

theorem phaseArpLeak_locked (s n : State) :
    (phaseArpLeak s n).locked = n.locked := by
  simp only [phaseArpLeak, apply_ite State.locked, ite_self]

theorem phaseWatchdog_locked (cfg : Cfg) (s n : State) (i : Input) :
    (phaseWatchdog cfg s n i).locked = n.locked := by
  simp only [phaseWatchdog, apply_ite State.locked, ite_self]

theorem phaseReset_locked (cfg : Cfg) (n : State) (i : Input) :
    (phaseReset cfg n i).locked = n.locked := by
  simp only [phaseReset, apply_ite State.locked, ite_self]

/-- The manual-reset phase is the identity when `rst_lock` is low. -/
theorem phaseReset_id_of_rst_low (cfg : Cfg) (n : State) (i : Input)
    (hr : i.rst_lock = false) : phaseReset cfg n i = n := by
  simp only [phaseReset, hr, Bool.false_eq_true, if_false]

/-- The flush-idle phase is the identity when not flushing. -/
theorem phaseFlushIdle_of_flush_low (s n : State) (i : Input)
    (hf : s.flush_state = false) : phaseFlushIdle s n i = n := by
  simp only [phaseFlushIdle, hf, Bool.false_and, Bool.false_eq_true, if_false]

/-- The watchdog phase always records the sampled heartbeat level. -/
theorem phaseWatchdog_last_heartbeat_val (cfg : Cfg) (s n : State) (i : Input) :
    (phaseWatchdog cfg s n i).last_heartbeat = i.heartbeat_in := by
  simp only [phaseWatchdog, apply_ite State.last_heartbeat, ite_self]

/-- Watchdog-timer formula of the watchdog phase alone. -/
theorem phaseWatchdog_timer_val (cfg : Cfg) (s n : State) (i : Input) :
    (phaseWatchdog cfg s n i).watchdog_timer =
      if i.heartbeat_in ≠ s.last_heartbeat then cfg.heartbeat_timeout
      else if 0 < s.watchdog_timer then s.watchdog_timer - 1
      else n.watchdog_timer := by
  simp only [phaseWatchdog, apply_ite State.watchdog_timer, ite_self]
  split_ifs <;> simp_all

/-- Heartbeat-latch formula of the watchdog phase alone. -/
theorem phaseWatchdog_violation_heartbeat_val (cfg : Cfg) (s n : State) (i : Input) :
    (phaseWatchdog cfg s n i).violation_heartbeat =
      if i.heartbeat_in ≠ s.last_heartbeat then n.violation_heartbeat
      else if 0 < s.watchdog_timer then n.violation_heartbeat
      else true := by
  simp only [phaseWatchdog, apply_ite State.violation_heartbeat, ite_self]
  split_ifs <;> simp_all

/-- The lock phase is the identity when nothing demands action. -/
theorem phaseLock_of_quiet (cfg : Cfg) (s n : State) (i : Input)
    (hr : i.rst_lock = false) (hh : s.violation_heartbeat = false)
    (hv : any_violation cfg s i = false) : phaseLock cfg s n i = n := by
  unfold phaseLock
  rw [if_neg (by simp [hr]), if_neg (by simp [hh]), if_neg (by simp [hv])]

/-- The lock phase is the identity in egress mode on an `rx_last` cycle
(with `rst_lock` low and the heartbeat latch clear). -/
theorem phaseLock_egress_last (cfg : Cfg) (s n : State) (i : Input)
    (hr : i.rst_lock = false) (hh : s.violation_heartbeat = false)
    (he : i.egress_mode = true) (hl : i.rx_last = true) :
    phaseLock cfg s n i = n := by
  unfold phaseLock
  simp only [hr, hh, he, hl, Bool.not_true, Bool.false_eq_true, if_false, ite_self]

/-- On a fired, unlocked cycle the packet loop runs the frame-end and
filtering logic over the volume-incremented accumulator. -/
theorem phasePacket_fire (cfg : Cfg) (s n : State) (i : Input)
    (h : (rx_fire cfg s i && !s.locked) = true) :
    phasePacket cfg s n i =
      phaseFilter cfg s
        (phaseFrameEnd s { n with volume_cnt := (s.volume_cnt + 1) % 134217728 } i) i := by
  unfold phasePacket
  rw [if_pos h]

/-- With flush active the frame-end branch never writes `locked`. -/
theorem phaseFrameEnd_locked_of_flush (s n : State) (i : Input)
    (hf : s.flush_state = true) : (phaseFrameEnd s n i).locked = n.locked := by
  unfold phaseFrameEnd
  rw [if_pos hf]
  simp only [clearFrame_locked, apply_ite State.locked, ite_self]

/-- With flush active the packet loop never writes `locked`. -/
theorem phasePacket_locked_of_flush (cfg : Cfg) (s n : State) (i : Input)
    (hf : s.flush_state = true) : (phasePacket cfg s n i).locked = n.locked := by
  unfold phasePacket
  simp only [phaseFilter_locked, hf, phaseFrameEnd_locked_of_flush,
    apply_ite State.locked, ite_self]

/-- On an `rx_last` cycle the EtherType/volume filter part is inert. -/
theorem phaseFilterEth_of_last (cfg : Cfg) (s n : State) (i : Input)
    (h : i.rx_last = true) : phaseFilterEth cfg s n i = n := by
  simp only [phaseFilterEth, h, Bool.not_true, Bool.and_false, Bool.false_eq_true, if_false]

/-- On an `rx_last` cycle this filter part leaves every guard latch alone. -/
theorem guardView_phaseFilterArp_of_last (s n : State) (i : Input)
    (h : i.rx_last = true) : guardView (phaseFilterArp s n i) = guardView n := by
  simp only [phaseFilterArp, h, Bool.not_true, Bool.and_false, Bool.false_eq_true, if_false,
    guardView, apply_ite guardView, apply_ite State.locked,
    apply_ite State.drop_current,
    apply_ite State.violation_ttl,
    apply_ite State.violation_plaintext,
    apply_ite State.violation_ethertype,
    apply_ite State.violation_arp_rate,
    apply_ite State.violation_ip_proto,
    apply_ite State.violation_arp_size,
    apply_ite State.violation_frag,
    apply_ite State.violation_ip_options,
    apply_ite State.violation_arp_opcode,
    apply_ite State.violation_land,
    apply_ite State.violation_loopback,
    apply_ite State.violation_tcp_flags,
    apply_ite State.violation_tcp_options,
    apply_ite State.violation_udp_len,
    apply_ite State.violation_volume,
    apply_ite State.violation_heartbeat,
    apply_ite State.violation_wg_size, ite_self]

/-- On an `rx_last` cycle this filter part leaves every guard latch alone. -/
theorem guardView_phaseFilterIpHdr_of_last (s n : State) (i : Input)
    (h : i.rx_last = true) : guardView (phaseFilterIpHdr s n i) = guardView n := by
  simp only [phaseFilterIpHdr, h, Bool.not_true, Bool.and_false, Bool.false_eq_true, if_false,
    guardView, apply_ite guardView, apply_ite State.locked,
    apply_ite State.drop_current,
    apply_ite State.violation_ttl,
    apply_ite State.violation_plaintext,
    apply_ite State.violation_ethertype,
    apply_ite State.violation_arp_rate,
    apply_ite State.violation_ip_proto,
    apply_ite State.violation_arp_size,
    apply_ite State.violation_frag,
    apply_ite State.violation_ip_options,
    apply_ite State.violation_arp_opcode,
    apply_ite State.violation_land,
    apply_ite State.violation_loopback,
    apply_ite State.violation_tcp_flags,
    apply_ite State.violation_tcp_options,
    apply_ite State.violation_udp_len,
    apply_ite State.violation_volume,
    apply_ite State.violation_heartbeat,
    apply_ite State.violation_wg_size, ite_self]

/-- On an `rx_last` cycle this filter part leaves every guard latch alone. -/
theorem guardView_phaseFilterIpAddr_of_last (s n : State) (i : Input)
    (h : i.rx_last = true) : guardView (phaseFilterIpAddr s n i) = guardView n := by
  simp only [phaseFilterIpAddr, h, Bool.not_true, Bool.and_false, Bool.false_eq_true, if_false,
    guardView, apply_ite guardView, apply_ite State.locked,
    apply_ite State.drop_current,
    apply_ite State.violation_ttl,
    apply_ite State.violation_plaintext,
    apply_ite State.violation_ethertype,
    apply_ite State.violation_arp_rate,
    apply_ite State.violation_ip_proto,
    apply_ite State.violation_arp_size,
    apply_ite State.violation_frag,
    apply_ite State.violation_ip_options,
    apply_ite State.violation_arp_opcode,
    apply_ite State.violation_land,
    apply_ite State.violation_loopback,
    apply_ite State.violation_tcp_flags,
    apply_ite State.violation_tcp_options,
    apply_ite State.violation_udp_len,
    apply_ite State.violation_volume,
    apply_ite State.violation_heartbeat,
    apply_ite State.violation_wg_size, ite_self]

/-- On an `rx_last` cycle this filter part leaves every guard latch alone. -/
theorem guardView_phaseFilterIpTail_of_last (s n : State) (i : Input)
    (h : i.rx_last = true) : guardView (phaseFilterIpTail s n i) = guardView n := by
  simp only [phaseFilterIpTail, h, Bool.not_true, Bool.and_false, Bool.false_eq_true, if_false,
    guardView, apply_ite guardView, apply_ite State.locked,
    apply_ite State.drop_current,
    apply_ite State.violation_ttl,
    apply_ite State.violation_plaintext,
    apply_ite State.violation_ethertype,
    apply_ite State.violation_arp_rate,
    apply_ite State.violation_ip_proto,
    apply_ite State.violation_arp_size,
    apply_ite State.violation_frag,
    apply_ite State.violation_ip_options,
    apply_ite State.violation_arp_opcode,
    apply_ite State.violation_land,
    apply_ite State.violation_loopback,
    apply_ite State.violation_tcp_flags,
    apply_ite State.violation_tcp_options,
    apply_ite State.violation_udp_len,
    apply_ite State.violation_volume,
    apply_ite State.violation_heartbeat,
    apply_ite State.violation_wg_size, ite_self]

/-- On an `rx_last` cycle the whole filtering phase leaves every guard
latch alone. -/
theorem guardView_phaseFilter_of_last (cfg : Cfg) (s n : State) (i : Input)
    (h : i.rx_last = true) : guardView (phaseFilter cfg s n i) = guardView n := by
  simp only [phaseFilter, phaseFilterEth_of_last, guardView_phaseFilterArp_of_last,
    guardView_phaseFilterIpHdr_of_last, guardView_phaseFilterIpAddr_of_last,
    guardView_phaseFilterIpTail_of_last, h, apply_ite guardView, ite_self]

/-- The ARP leak phase leaves every guard latch alone. -/
theorem guardView_phaseArpLeak (s n : State) :
    guardView (phaseArpLeak s n) = guardView n := by
  simp only [phaseArpLeak, guardView, apply_ite guardView, apply_ite State.locked,
    apply_ite State.drop_current,
    apply_ite State.violation_ttl,
    apply_ite State.violation_plaintext,
    apply_ite State.violation_ethertype,
    apply_ite State.violation_arp_rate,
    apply_ite State.violation_ip_proto,
    apply_ite State.violation_arp_size,
    apply_ite State.violation_frag,
    apply_ite State.violation_ip_options,
    apply_ite State.violation_arp_opcode,
    apply_ite State.violation_land,
    apply_ite State.violation_loopback,
    apply_ite State.violation_tcp_flags,
    apply_ite State.violation_tcp_options,
    apply_ite State.violation_udp_len,
    apply_ite State.violation_volume,
    apply_ite State.violation_heartbeat,
    apply_ite State.violation_wg_size, ite_self]

/-- With the timer still positive the watchdog phase leaves every guard
latch alone. -/
theorem guardView_phaseWatchdog_of_pos (cfg : Cfg) (s n : State) (i : Input)
    (hw : 0 < s.watchdog_timer) : guardView (phaseWatchdog cfg s n i) = guardView n := by
  simp only [phaseWatchdog, guardView, apply_ite guardView, apply_ite State.locked,
    apply_ite State.drop_current,
    apply_ite State.violation_ttl,
    apply_ite State.violation_plaintext,
    apply_ite State.violation_ethertype,
    apply_ite State.violation_arp_rate,
    apply_ite State.violation_ip_proto,
    apply_ite State.violation_arp_size,
    apply_ite State.violation_frag,
    apply_ite State.violation_ip_options,
    apply_ite State.violation_arp_opcode,
    apply_ite State.violation_land,
    apply_ite State.violation_loopback,
    apply_ite State.violation_tcp_flags,
    apply_ite State.violation_tcp_options,
    apply_ite State.violation_udp_len,
    apply_ite State.violation_volume,
    apply_ite State.violation_heartbeat,
    apply_ite State.violation_wg_size, ite_self]
  split_ifs <;> simp_all

/-- Guard-latch values produced by an egress-mode non-flush `rx_last`
frame end: the per-frame latches and `drop_current` clear, `locked`,
`violation_volume` and `violation_heartbeat` pass through, and
`violation_wg_size` latches the truncation/runt verdict. -/
theorem guardView_phaseFrameEnd_egress (s n : State) (i : Input)
    (hf : s.flush_state = false) (hl : i.rx_last = true) (he : i.egress_mode = true) :
    guardView (phaseFrameEnd s n i) =
      [n.locked, false, false, false, false, false, false, false, false, false,
       false, false, false, false, false, false, n.violation_volume,
       n.violation_heartbeat,
       ((check_truncation s i && !allow_truncation s) || check_runt s i)] := by
  unfold phaseFrameEnd
  rw [if_neg (by simp [hf]), if_pos hl]
  simp only [clearFrame, he, Bool.not_true, Bool.false_eq_true, if_false,
    guardView, apply_ite guardView, apply_ite State.locked,
    apply_ite State.drop_current,
    apply_ite State.violation_ttl,
    apply_ite State.violation_plaintext,
    apply_ite State.violation_ethertype,
    apply_ite State.violation_arp_rate,
    apply_ite State.violation_ip_proto,
    apply_ite State.violation_arp_size,
    apply_ite State.violation_frag,
    apply_ite State.violation_ip_options,
    apply_ite State.violation_arp_opcode,
    apply_ite State.violation_land,
    apply_ite State.violation_loopback,
    apply_ite State.violation_tcp_flags,
    apply_ite State.violation_tcp_options,
    apply_ite State.violation_udp_len,
    apply_ite State.violation_volume,
    apply_ite State.violation_heartbeat,
    apply_ite State.violation_wg_size, ite_self]
  split_ifs <;> simp_all

/-- The sampled heartbeat register always holds last cycle's input. -/
theorem step_last_heartbeat (cfg : Cfg) (s : State) (i : Input) :
    (step cfg s i).last_heartbeat = i.heartbeat_in := by
  unfold step
  rw [phaseReset_last_heartbeat, phaseWatchdog_last_heartbeat_val]

/-- Watchdog-timer next-state formula when `rst_lock` is low: reload on
an edge, else count down to zero. -/
theorem step_watchdog_timer_of_rst_low (cfg : Cfg) (s : State) (i : Input)
    (hr : i.rst_lock = false) :
    (step cfg s i).watchdog_timer =
      if i.heartbeat_in ≠ s.last_heartbeat then cfg.heartbeat_timeout
      else if 0 < s.watchdog_timer then s.watchdog_timer - 1
      else s.watchdog_timer := by
  have hn : (phaseArpLeak s (phasePacket cfg s
      (phaseFlushIdle s (phaseLock cfg s s i) i) i)).watchdog_timer =
      s.watchdog_timer := by
    rw [phaseArpLeak_watchdog_timer, phasePacket_watchdog_timer,
      phaseFlushIdle_watchdog_timer, phaseLock_watchdog_timer]
  unfold step
  rw [phaseReset_id_of_rst_low cfg _ i hr, phaseWatchdog_timer_val, hn]

/-- Heartbeat-latch next-state formula when `rst_lock` is low: latch
high exactly when no edge arrives while the timer is exhausted. -/
theorem step_violation_heartbeat_of_rst_low (cfg : Cfg) (s : State) (i : Input)
    (hr : i.rst_lock = false) :
    (step cfg s i).violation_heartbeat =
      if i.heartbeat_in ≠ s.last_heartbeat then s.violation_heartbeat
      else if 0 < s.watchdog_timer then s.violation_heartbeat
      else true := by
  have hn : (phaseArpLeak s (phasePacket cfg s
      (phaseFlushIdle s (phaseLock cfg s s i) i) i)).violation_heartbeat =
      s.violation_heartbeat := by
    rw [phaseArpLeak_violation_heartbeat, phasePacket_violation_heartbeat,
      phaseFlushIdle_violation_heartbeat, phaseLock_violation_heartbeat]
  unfold step
  rw [phaseReset_id_of_rst_low cfg _ i hr, phaseWatchdog_violation_heartbeat_val, hn]

/-- Iterating a held input one more time steps from the iterated state. -/
theorem stepN_succ_back (cfg : Cfg) (i : Input) :
    ∀ (k : Nat) (s : State), stepN cfg i (k + 1) s = step cfg (stepN cfg i k s) i := by
  intro k
  induction k with
  | zero => intro s; rfl
  | succ m ih => intro s; simpa [stepN] using ih (step cfg s i)

/-- While the held heartbeat level equals the sampled one and the timer
covers `k` more cycles, the heartbeat latch stays low and the timer
counts down by one per cycle. -/
theorem heartbeat_countdown (cfg : Cfg) (i : Input) :
    ∀ (k : Nat) (s : State), i.rst_lock = false →
    i.heartbeat_in = s.last_heartbeat → s.violation_heartbeat = false →
    k ≤ s.watchdog_timer →
    (stepN cfg i k s).violation_heartbeat = false ∧
    (stepN cfg i k s).watchdog_timer = s.watchdog_timer - k ∧
    (stepN cfg i k s).last_heartbeat = s.last_heartbeat := by
  intro k
  induction k with
  | zero => intro s _ _ hv _; exact ⟨hv, by simp [stepN], by simp [stepN]⟩
  | succ m ih =>
    intro s hr he hv hk
    have hpos : 0 < s.watchdog_timer := Nat.lt_of_lt_of_le (Nat.succ_pos m) hk
    have hvh : (step cfg s i).violation_heartbeat = false := by
      rw [step_violation_heartbeat_of_rst_low cfg s i hr, if_neg (by simp [he]),
        if_pos hpos]
      exact hv
    have hwt : (step cfg s i).watchdog_timer = s.watchdog_timer - 1 := by
      rw [step_watchdog_timer_of_rst_low cfg s i hr, if_neg (by simp [he]),
        if_pos hpos]
    have hlh : (step cfg s i).last_heartbeat = s.last_heartbeat := by
      rw [step_last_heartbeat]; exact he
    have hk' : m ≤ (step cfg s i).watchdog_timer := by omega
    have he' : i.heartbeat_in = (step cfg s i).last_heartbeat := by rw [hlh]; exact he
    obtain ⟨a, b, c⟩ := ih (step cfg s i) hr he' hvh hk'
    refine ⟨by simpa [stepN] using a, ?_, ?_⟩
    · have : (stepN cfg i m (step cfg s i)).watchdog_timer =
        (step cfg s i).watchdog_timer - m := b
      simp only [stepN]
      omega
    · simpa [stepN, hlh] using c

/-- A flushing non-last ingress byte that raises no violation. -/
def flushDataIn : Input :=
  { rx_data := 0, rx_valid := true, rx_last := false, tx_ready := true,
    heartbeat_in := false, rst_lock := false, egress_mode := false }

/-- A small-timeout instance of the core (`heartbeat_timeout=2`) used
to exercise the watchdog in few cycles. -/
def cfg2 : Cfg := ⟨2, 99614720⟩

/-- An idle cycle holding `heartbeat_in` high. -/
def hbIn : Input :=
  { rx_data := 0, rx_valid := false, rx_last := false, tx_ready := true,
    heartbeat_in := true, rst_lock := false, egress_mode := false }

/-- An egress-mode IP frame truncated after its first header byte
(`ip_len` still 0 when `rx_last` arrives, so the truncation rule fires
at end of frame). -/
def c6frame : List Input :=
  frameInputs true (List.replicate 12 0 ++ [0x08, 0x00, 0x45]) false

/-- The same truncated frame minus its final byte, as a prefix. -/
def c6pre : State :=
  run defCfg idleState (midInputs true (List.replicate 12 0 ++ [0x08, 0x00]) false)

/-- The truncated frame's final byte (egress mode, `rx_last`). -/
def c6last : Input :=
  { rx_data := 0x45, rx_valid := true, rx_last := true, tx_ready := true,
    heartbeat_in := false, rst_lock := false, egress_mode := true }

/-- A parsed-but-unfinished IP frame prefix: Ethernet header with
EtherType `0x0800`, then `45 00 00 28`, leaving `ip_len = 40`
captured with the frame still open. -/
def c9pre : State :=
  run defCfg idleState
    (midInputs false (List.replicate 12 0 ++ [0x08, 0x00, 0x45, 0x00, 0x00, 0x28]) false)

/-- First byte of the post-power-on frame (`rx_valid` held from the
first cycle, so `flush_state` is never cleared by an idle cycle). -/
def c10b0 : Input :=
  { rx_data := 0x41, rx_valid := true, rx_last := false, tx_ready := true,
    heartbeat_in := false, rst_lock := false, egress_mode := false }

/-- Last byte of the post-power-on frame. -/
def c10b1 : Input :=
  { rx_data := 0x42, rx_valid := true, rx_last := true, tx_ready := true,
    heartbeat_in := true, rst_lock := false, egress_mode := false }

/-- C1: while `locked=1` the egress valid line is low on every cycle,
whichever inputs arrive.  This entails the claim: the disjunct
`tx_valid=1 ∧ tx_last=1 ∧ tx_data=0` can only ever occur on the cycle
of the locking transition itself (`locked` still 0 there, since
`force_terminate` requires `~locked`), and once `locked=1` no ingress
byte is visible at egress. -/
theorem c1_no_leakage_when_locked (cfg : Cfg) (s : State) (i : Input)
    (h : s.locked = true) : (outputs cfg s i).tx_valid = false := by
  simp [outputs, gate_tx, force_terminate, h]

/-- Witness for C1 at a reachable locked state: a runt frame locks the
idle core, after which the egress valid line is low. -/
theorem c1_no_leakage_when_locked_witness :
    (step defCfg idleState runtValidIn).locked = true ∧
    (outputs defCfg (step defCfg idleState runtValidIn) runtValidIn).tx_valid = false :=
  ⟨by decide,
   c1_no_leakage_when_locked defCfg (step defCfg idleState runtValidIn) runtValidIn
     (by decide)⟩

/-- C2: lock stickiness — from any locked state, running any input
sequence in which `rst_lock` is never asserted leaves the core locked
on every subsequent cycle. -/
theorem c2_lock_stickiness (cfg : Cfg) (l : List Input) :
    ∀ (s : State), s.locked = true → (∀ i ∈ l, i.rst_lock = false) →
    (run cfg s l).locked = true := by
  induction l with
  | nil => intro s h _; simpa [run] using h
  | cons a t ih =>
    intro s h hall
    have ha := hall a (List.mem_cons_self a t)
    have hs := locked_sticky_step cfg s a h ha
    have ht := fun i hi => hall i (List.mem_cons_of_mem a hi)
    simpa [run] using ih (step cfg s a) hs ht

/-- Witness for C2: the locked core stays locked across two further
reset-free frames. -/
theorem c2_lock_stickiness_witness :
    (run defCfg (step defCfg idleState runtValidIn) [runtValidIn, runtValidIn]).locked
      = true :=
  c2_lock_stickiness defCfg [runtValidIn, runtValidIn]
    (step defCfg idleState runtValidIn) (by decide) (by decide)

/-- C3 counterexample: the literal scenario-1 frame (14 zero Ethernet
bytes, so EtherType `0x0000`) is not forwarded byte-identically and
does not leave `locked` at 0: the EtherType whitelist rejects byte 13
(`is_ip` was never set because byte 12 is 0), the byte is suppressed at
egress and the ingress-mode core locks. -/
theorem c3_literal_frame_locks :
    (run defCfg idleState (frameInputs false scenario1Bytes false)).locked = true ∧
    runOutputs defCfg idleState (frameInputs false scenario1Bytes false) ≠
      echoOutputs scenario1Bytes := by
  decide

/-- C3 amended: with bytes 12–13 set to `08 00` (IPv4 EtherType) — and
the TCP data-offset/flags bytes `0x50`/`0x02` the scenario prescribes —
the idle post-reset non-flushing ingress-mode core forwards the frame
byte-identically (same `last` position, `rx_ready` high, status LED on)
and `locked` remains 0 on every cycle and after the frame. -/
theorem c3_fixed_frame_forwarded :
    runOutputs defCfg idleState (frameInputs false scenario1FixedBytes false) =
      echoOutputs scenario1FixedBytes ∧
    (run defCfg idleState (frameInputs false scenario1FixedBytes false)).locked
      = false := by
  decide

/-- C4 counterexample: a locked core presented with a legal one-byte
ingress frame (`rx_valid=1 ∧ rx_last=1`) outputs `tx_last=1` together
with `tx_valid=0` — the combination the stream-port contract forbids.
The locked state is reached from power-on by a runt frame. -/
theorem c4_tx_last_without_valid :
    (step defCfg idleState runtValidIn).locked = true ∧
    (outputs defCfg (step defCfg idleState runtValidIn) runtValidIn).tx_last = true ∧
    (outputs defCfg (step defCfg idleState runtValidIn) runtValidIn).tx_valid
      = false := by
  decide

/-- C4 amended: the egress `last` line is combinationally wired to the
ingress `last` line on every cycle; it is not qualified by `tx_valid`,
so `tx_last=1 ∧ tx_valid=0` does occur whenever `rx_last` arrives while
the stream is gated without a terminator due. -/
theorem c4_tx_last_mirrors_rx_last (cfg : Cfg) (s : State) (i : Input) :
    (outputs cfg s i).tx_last = i.rx_last := rfl

/-- C5 counterexample: a violating byte received during flush does lock
the core — from the power-on state (`flush_state=1`, `locked=0`,
heartbeat latch clear) a one-byte runt frame with `rst_lock=0` makes
`locked=1` on the next cycle, though the claim says `locked` cannot
change while flushing. -/
theorem c5_flush_runt_locks :
    (initState defCfg).flush_state = true ∧
    (initState defCfg).locked = false ∧
    (initState defCfg).violation_heartbeat = false ∧
    runtValidIn.rst_lock = false ∧
    (step defCfg (initState defCfg) runtValidIn).locked = true := by
  decide

/-- C5 amended: while `flush_state=1` with `rst_lock=0` and the
heartbeat latch clear, an ingress byte leaves `locked` unchanged only
if it raises no violation (`any_violation=0`); the lock decision is not
gated on `flush_state`, so a violating byte (a runt `rx_last`, a volume
overflow, …) locks the ingress-mode core even during flush. -/
theorem c5_flush_locked_stable (cfg : Cfg) (s : State) (i : Input)
    (hf : s.flush_state = true) (hr : i.rst_lock = false)
    (hh : s.violation_heartbeat = false)
    (hv : any_violation cfg s i = false) :
    (step cfg s i).locked = s.locked := by
  unfold step
  rw [phaseReset_locked, phaseWatchdog_locked, phaseArpLeak_locked,
    phasePacket_locked_of_flush cfg s _ i hf, phaseFlushIdle_locked,
    phaseLock_of_quiet cfg s s i hr hh hv]

/-- Witness for C5: a non-violating data byte during power-on flush
leaves `locked` unchanged. -/
theorem c5_flush_locked_stable_witness :
    (step defCfg (initState defCfg) flushDataIn).locked = (initState defCfg).locked :=
  c5_flush_locked_stable defCfg (initState defCfg) flushDataIn
    (by decide) (by decide) (by decide) (by decide)

/-- C6 counterexample: in egress mode a violation on the `rx_last`
cycle is not free of persistent effects — an IP frame truncated before
its announced length (here `ip_len` still 0 at `rx_last`) latches
`violation_wg_size=1`, which persists into the next frame, while a
violation-free egress frame end leaves that latch at 0. -/
theorem c6_egress_last_violation_latches :
    (run defCfg idleState c6frame).locked = false ∧
    (run defCfg idleState c6frame).drop_current = false ∧
    (run defCfg idleState c6frame).violation_wg_size = true ∧
    (run defCfg idleState (frameInputs true scenario1FixedBytes false)).violation_wg_size
      = false := by
  decide

/-- C6 amended: in egress mode (`rst_lock=0`, heartbeat healthy), when
the operating core (`locked=0`, not flushing) fires an `rx_last` byte,
on the next cycle `locked` stays 0, `drop_current` and the fourteen
other per-frame latches are cleared and `violation_volume` /
`violation_heartbeat` are as after any frame end — but
`violation_wg_size` is latched to the truncation/runt verdict of that
final byte, so a truncation or runt violation at `rx_last` does leave
a persistent effect on the following frame. -/
theorem c6_egress_frame_end_effects (cfg : Cfg) (s : State) (i : Input)
    (he : i.egress_mode = true) (hr : i.rst_lock = false)
    (hh : s.violation_heartbeat = false) (hw : 0 < s.watchdog_timer)
    (hl : s.locked = false) (hf : s.flush_state = false)
    (hv : i.rx_valid = true) (hlast : i.rx_last = true)
    (hany : any_violation cfg s i = true) :
    (step cfg s i).locked = false ∧
    (step cfg s i).drop_current = false ∧
    (step cfg s i).violation_ttl = false ∧
    (step cfg s i).violation_plaintext = false ∧
    (step cfg s i).violation_ethertype = false ∧
    (step cfg s i).violation_arp_rate = false ∧
    (step cfg s i).violation_ip_proto = false ∧
    (step cfg s i).violation_arp_size = false ∧
    (step cfg s i).violation_frag = false ∧
    (step cfg s i).violation_ip_options = false ∧
    (step cfg s i).violation_arp_opcode = false ∧
    (step cfg s i).violation_land = false ∧
    (step cfg s i).violation_loopback = false ∧
    (step cfg s i).violation_tcp_flags = false ∧
    (step cfg s i).violation_tcp_options = false ∧
    (step cfg s i).violation_udp_len = false ∧
    (step cfg s i).violation_volume = s.violation_volume ∧
    (step cfg s i).violation_heartbeat = false ∧
    (step cfg s i).violation_wg_size =
      ((check_truncation s i && !allow_truncation s) || check_runt s i) := by
  have hg : gate_tx cfg s i = true := gate_tx_of_any cfg s i hany
  have hfire : (rx_fire cfg s i && !s.locked) = true := by
    simp [rx_fire, outputs, hv, hg, hl]
  have hmid : phaseFlushIdle s (phaseLock cfg s s i) i = s := by
    rw [phaseLock_egress_last cfg s s i hr hh he hlast]
    exact phaseFlushIdle_of_flush_low s s i hf
  have hgv : guardView (step cfg s i) =
      [s.locked, false, false, false, false, false, false, false, false, false,
       false, false, false, false, false, false, s.violation_volume,
       s.violation_heartbeat,
       ((check_truncation s i && !allow_truncation s) || check_runt s i)] := by
    unfold step
    rw [phaseReset_id_of_rst_low cfg _ i hr, guardView_phaseWatchdog_of_pos cfg s _ i hw,
      guardView_phaseArpLeak, hmid, phasePacket_fire cfg s s i hfire,
      guardView_phaseFilter_of_last cfg s _ i hlast,
      guardView_phaseFrameEnd_egress s _ i hf hlast he]
  rw [hl, hh] at hgv
  simp only [guardView, List.cons.injEq, and_true] at hgv
  exact hgv

/-- Witness for C6 at the truncated-frame state: the final byte of the
egress-mode truncated IP frame leaves exactly the amended effects. -/
theorem c6_egress_frame_end_effects_witness :
    (step defCfg c6pre c6last).locked = false ∧
    (step defCfg c6pre c6last).drop_current = false ∧
    (step defCfg c6pre c6last).violation_ttl = false ∧
    (step defCfg c6pre c6last).violation_plaintext = false ∧
    (step defCfg c6pre c6last).violation_ethertype = false ∧
    (step defCfg c6pre c6last).violation_arp_rate = false ∧
    (step defCfg c6pre c6last).violation_ip_proto = false ∧
    (step defCfg c6pre c6last).violation_arp_size = false ∧
    (step defCfg c6pre c6last).violation_frag = false ∧
    (step defCfg c6pre c6last).violation_ip_options = false ∧
    (step defCfg c6pre c6last).violation_arp_opcode = false ∧
    (step defCfg c6pre c6last).violation_land = false ∧
    (step defCfg c6pre c6last).violation_loopback = false ∧
    (step defCfg c6pre c6last).violation_tcp_flags = false ∧
    (step defCfg c6pre c6last).violation_tcp_options = false ∧
    (step defCfg c6pre c6last).violation_udp_len = false ∧
    (step defCfg c6pre c6last).violation_volume = c6pre.violation_volume ∧
    (step defCfg c6pre c6last).violation_heartbeat = false ∧
    (step defCfg c6pre c6last).violation_wg_size =
      ((check_truncation c6pre c6last && !allow_truncation c6pre) ||
        check_runt c6pre c6last) :=
  c6_egress_frame_end_effects defCfg c6pre c6last rfl rfl (by decide) (by decide)
    (by decide) (by decide) rfl rfl (by decide)

/-- C8 counterexample: with `heartbeat_timeout=2`, after a heartbeat
edge on cycle 0 and the line then held steady, the latch is still 0 at
the state reached `HEARTBEAT_TIMEOUT+1 = 3` cycles after the toggle and
first reads 1 a cycle later — the reload only takes effect one cycle
after the edge, so the claimed latency is one cycle short. -/
theorem c8_heartbeat_off_by_one :
    cfg2.heartbeat_timeout = 2 ∧
    (stepN cfg2 hbIn 2 (step cfg2 (initState cfg2) hbIn)).violation_heartbeat = false ∧
    (stepN cfg2 hbIn 3 (step cfg2 (initState cfg2) hbIn)).violation_heartbeat
      = true := by
  decide

/-- C8 amended: after a heartbeat edge on some cycle (with the latch
clear and `rst_lock` low), holding the line steady keeps the latch low
for `HEARTBEAT_TIMEOUT` further cycles after the reload cycle and
latches it high exactly `HEARTBEAT_TIMEOUT+1` cycles after the reload —
that is `HEARTBEAT_TIMEOUT+2` cycles after the toggle itself; once
high, the latch stays high on every cycle with `rst_lock` low. -/
theorem c8_heartbeat_latency (cfg : Cfg) (s : State) (i0 ih : Input)
    (h0 : i0.rst_lock = false) (hh : ih.rst_lock = false)
    (ht : i0.heartbeat_in ≠ s.last_heartbeat)
    (hhb : ih.heartbeat_in = i0.heartbeat_in)
    (hv : s.violation_heartbeat = false) :
    (∀ k, k ≤ cfg.heartbeat_timeout →
      (stepN cfg ih k (step cfg s i0)).violation_heartbeat = false) ∧
    (stepN cfg ih (cfg.heartbeat_timeout + 1) (step cfg s i0)).violation_heartbeat
      = true ∧
    (∀ (s' : State) (i' : Input), s'.violation_heartbeat = true →
      i'.rst_lock = false → (step cfg s' i').violation_heartbeat = true) := by
  have hv1 : (step cfg s i0).violation_heartbeat = false := by
    rw [step_violation_heartbeat_of_rst_low cfg s i0 h0, if_pos ht]
    exact hv
  have hw1 : (step cfg s i0).watchdog_timer = cfg.heartbeat_timeout := by
    rw [step_watchdog_timer_of_rst_low cfg s i0 h0, if_pos ht]
  have hl1 : ih.heartbeat_in = (step cfg s i0).last_heartbeat := by
    rw [step_last_heartbeat]; exact hhb
  refine ⟨?_, ?_, ?_⟩
  · intro k hk
    exact (heartbeat_countdown cfg ih k (step cfg s i0) hh hl1 hv1
      (by omega)).1
  · obtain ⟨a, b, c⟩ := heartbeat_countdown cfg ih cfg.heartbeat_timeout
      (step cfg s i0) hh hl1 hv1 (by omega)
    rw [stepN_succ_back,
      step_violation_heartbeat_of_rst_low cfg _ ih hh, if_neg (by rw [c, ← hl1]; simp),
      if_neg (by omega)]
  · intro s' i' hs hr
    rw [step_violation_heartbeat_of_rst_low cfg s' i' hr]
    split_ifs <;> simp [hs]

/-- Witness for C8 with `heartbeat_timeout=2`: latch still low one
cycle after the reload, high `timeout+1` cycles after it. -/
theorem c8_heartbeat_latency_witness :
    (stepN cfg2 hbIn 1 (step cfg2 (initState cfg2) hbIn)).violation_heartbeat = false ∧
    (stepN cfg2 hbIn (cfg2.heartbeat_timeout + 1)
      (step cfg2 (initState cfg2) hbIn)).violation_heartbeat = true :=
  ⟨(c8_heartbeat_latency cfg2 (initState cfg2) hbIn hbIn rfl rfl (by decide) rfl
      (by decide)).1 1 (by decide),
   (c8_heartbeat_latency cfg2 (initState cfg2) hbIn hbIn rfl rfl (by decide) rfl
      (by decide)).2.1⟩

/-- C9 counterexample: `rst_lock` does not reset the whole parser, and
does not even reliably clear `locked`.  After a frame prefix that
captured `ip_len = 40`, a `rst_lock` cycle leaves `ip_len` at 40
instead of its power-on value 0; and on a `rst_lock` cycle on which a
runt frame also ends, the packet loop re-asserts `locked` after the
reset branch cleared it. -/
theorem c9_rst_incomplete :
    c9pre.ip_len = 40 ∧
    (step defCfg c9pre rstIn).ip_len = 40 ∧
    (initState defCfg).ip_len = 0 ∧
    idleState.locked = false ∧
    (step defCfg idleState rstRuntIn).locked = true := by
  decide

/-- C9 amended: on a `rst_lock` cycle with no ingress byte
(`rx_valid=0`) and the core not flushing, the next cycle has `locked`,
`drop_current`, all 17 violation latches, `volume_cnt` and `arp_bucket`
cleared, `watchdog_timer` reloaded, `flush_state` re-armed, and
`byte_ptr`, `is_ip`, `is_arp`, `plaintext_cnt` reset — while
`ip_hdr_len`, `ip_len`, `ttl`, `ip_proto`, `src_ip`, `dst_ip`,
`udp_len_reg`, `tcp_flags_high_bit` and `arp_opcode_high` keep their
pre-reset values (they are not in the reset list); the ARP leak timer
ticks on unaffected. -/
theorem c9_rst_effects (cfg : Cfg) (s : State) (i : Input)
    (hr : i.rst_lock = true) (hv : i.rx_valid = false)
    (hf : s.flush_state = false) :
    step cfg s i =
      { s with locked := false, drop_current := false, flush_state := true,
               violation_volume := false, violation_ttl := false,
               violation_wg_size := false, violation_plaintext := false,
               violation_heartbeat := false, violation_ethertype := false,
               violation_arp_rate := false, violation_ip_proto := false,
               violation_arp_size := false, violation_frag := false,
               violation_ip_options := false, violation_arp_opcode := false,
               violation_land := false, violation_loopback := false,
               violation_tcp_flags := false, violation_tcp_options := false,
               violation_udp_len := false,
               watchdog_timer := cfg.heartbeat_timeout, volume_cnt := 0,
               arp_bucket := 0, byte_ptr := 0, is_ip := false, is_arp := false,
               plaintext_cnt := 0,
               arp_leak_timer :=
                 if ARP_LEAK_INTERVAL ≤ s.arp_leak_timer then 0
                 else (s.arp_leak_timer + 1) % 16384,
               last_heartbeat := i.heartbeat_in } := by
  simp only [step, phaseReset, phaseWatchdog, phaseArpLeak, phasePacket, phaseFlushIdle,
    phaseLock, rx_fire, hr, hv, hf, Bool.false_and, Bool.and_self, Bool.false_eq_true,
    if_false, if_true, Bool.not_false, Bool.and_false]
  split_ifs <;> simp_all

/-- Witness for C9 at the parsed-prefix state: the reset cycle yields
exactly the amended next state (in particular `ip_len` survives). -/
theorem c9_rst_effects_witness :
    step defCfg c9pre rstIn =
      { c9pre with locked := false, drop_current := false, flush_state := true,
                   violation_volume := false, violation_ttl := false,
                   violation_wg_size := false, violation_plaintext := false,
                   violation_heartbeat := false, violation_ethertype := false,
                   violation_arp_rate := false, violation_ip_proto := false,
                   violation_arp_size := false, violation_frag := false,
                   violation_ip_options := false, violation_arp_opcode := false,
                   violation_land := false, violation_loopback := false,
                   violation_tcp_flags := false, violation_tcp_options := false,
                   violation_udp_len := false,
                   watchdog_timer := defCfg.heartbeat_timeout, volume_cnt := 0,
                   arp_bucket := 0, byte_ptr := 0, is_ip := false, is_arp := false,
                   plaintext_cnt := 0,
                   arp_leak_timer :=
                     if ARP_LEAK_INTERVAL ≤ c9pre.arp_leak_timer then 0
                     else (c9pre.arp_leak_timer + 1) % 16384,
                   last_heartbeat := rstIn.heartbeat_in } :=
  c9_rst_effects defCfg c9pre rstIn rfl rfl (by decide)

/-- C10 counterexample: with `rx_valid` held from power-on, the first
frame is not entirely suppressed — on its `rx_last` byte the core
emits a `force_terminate` terminator (`tx_valid=1`, byte pointer stuck
at 0 makes the frame end a runt), and that same runt violation locks
the ingress-mode core, so normal forwarding does not begin with the
second frame. -/
theorem c10_first_frame_terminator :
    (outputs defCfg (step defCfg (initState defCfg) c10b0) c10b1).tx_valid = true ∧
    (outputs defCfg (step defCfg (initState defCfg) c10b0) c10b1).tx_last = true ∧
    (outputs defCfg (step defCfg (initState defCfg) c10b0) c10b1).tx_data = 0 ∧
    (run defCfg (initState defCfg) [c10b0, c10b1]).locked = true := by
  decide

/-- C10 amended: while `flush_state=1` every non-last ingress byte is
suppressed at egress (`tx_valid=0`) with `rx_ready` high, but the
frame's `rx_last` byte instead produces the zeroed terminator
(`tx_valid=1 ∧ tx_last=1 ∧ tx_data=0`), because `byte_ptr` is held at 0
during flush and the frame end is judged a runt; in ingress mode that
same runt violation locks the core, so the second frame is not
forwarded either. -/
theorem c10_flush_first_frame :
    (∀ (cfg : Cfg) (s : State) (i : Input), s.flush_state = true →
      i.rx_last = false →
      (outputs cfg s i).tx_valid = false ∧ (outputs cfg s i).rx_ready = true) ∧
    runOutputs defCfg (initState defCfg) [c10b0, c10b1] =
      [{ tx_data := 0x41, tx_valid := false, tx_last := false, rx_ready := true,
         status_led := true },
       { tx_data := 0, tx_valid := true, tx_last := true, rx_ready := true,
         status_led := true }] ∧
    (run defCfg (initState defCfg) [c10b0, c10b1]).locked = true := by
  refine ⟨?_, by decide, by decide⟩
  intro cfg s i hf hl
  constructor
  · simp [outputs, gate_tx, force_terminate, hf, hl]
  · simp [outputs, gate_tx, hf]

/-- Witness for C10's universally quantified part at the power-on
state and the first held byte. -/
theorem c10_flush_first_frame_witness :
    (initState defCfg).flush_state = true ∧
    (outputs defCfg (initState defCfg) c10b0).tx_valid = false ∧
    (outputs defCfg (initState defCfg) c10b0).rx_ready = true :=
  ⟨by decide,
   (c10_flush_first_frame.1 defCfg (initState defCfg) c10b0 (by decide) rfl).1,
   (c10_flush_first_frame.1 defCfg (initState defCfg) c10b0 (by decide) rfl).2⟩

/-- Two back-to-back minimal ARP frames (84 cycles). -/
def arpChunk : List Input :=
  frameInputs false arpFrameBytes false ++ frameInputs false arpFrameBytes false

/-- The state at a frame boundary of the ARP-burst run: the idle state
with the ARP bucket, leak timer and volume counter advanced. -/
def arpBoundary (b t v : Nat) : State :=
  { idleState with
    arp_bucket := b
    arp_leak_timer := t
    volume_cnt := v }

/-- The boundary state after `k` two-frame ARP chunks: 28 bucket
tokens per 42-byte frame, one cycle per byte, no leak yet. -/
def c7Boundary (k : Nat) : State := arpBoundary (56 * k) (1 + 84 * k) (84 * k)

/-- The first `k` bytes of a minimal ARP frame. -/
def arp143head (k : Nat) : List Input := (frameInputs false arpFrameBytes false).take k

/-- Chaining evaluated runs: if one chunk maps each boundary state to
the next, a flattened replication of the chunk maps the first boundary
to the last. -/
theorem run_chain (cfg : Cfg) (c : List Input) (f : Nat → State) :
    ∀ (m j : Nat), (∀ k, j ≤ k → k < j + m → run cfg (f k) c = f (k + 1)) →
    run cfg (f j) ((List.replicate m c).flatten) = f (j + m) := by
  intro m
  induction m with
  | zero => intro j _; simp [run]
  | succ p ih =>
    intro j hstep
    have h1 : run cfg (f j) c = f (j + 1) := hstep j (Nat.le_refl j) (by omega)
    have h2 : ∀ k, j + 1 ≤ k → k < (j + 1) + p → run cfg (f k) c = f (k + 1) :=
      fun k hk1 hk2 => hstep k (by omega) (by omega)
    calc run cfg (f j) ((List.replicate (p + 1) c).flatten)
        = run cfg (run cfg (f j) c) ((List.replicate p c).flatten) := by
          simp [List.replicate_succ, run_append]
      _ = f ((j + 1) + p) := by rw [h1]; exact ih (j + 1) h2
      _ = f (j + (p + 1)) := by congr 1; omega

set_option maxRecDepth 60000000 in
set_option maxHeartbeats 4000000 in
/-- Each two-frame ARP chunk advances the boundary state by 56 bucket
tokens, 84 leak-timer ticks and 84 volume counts, for all 71 chunks of
the 142-frame prefix. -/
theorem c7bound : ∀ k, k < 71 →
    run defCfg (c7Boundary k) arpChunk = c7Boundary (k + 1) := by
  decide

/-- After 142 back-to-back minimal ARP frames the core sits at the
boundary state with `arp_bucket = 3976`, still unlocked. -/
theorem c7after142 :
    run defCfg idleState ((List.replicate 71 arpChunk).flatten) = c7Boundary 71 := by
  have h := run_chain defCfg arpChunk c7Boundary 71 0
    (fun k _ hk2 => c7bound k (by omega))
  have h0 : c7Boundary 0 = idleState := by decide
  rw [h0] at h
  simpa using h

/-- C7 counterexample: during the ARP burst the 143rd frame — not the
4,001st — already trips the rate limiter: 39 bytes into the frame that
follows the first 142, `violation_arp_rate` and (ingress mode) `locked`
are both set, because the bucket counts every fired ARP byte rather
than one per frame. -/
theorem c7_arp_rate_early_lock :
    (run defCfg (run defCfg idleState ((List.replicate 71 arpChunk).flatten))
      (arp143head 39)).violation_arp_rate = true ∧
    (run defCfg (run defCfg idleState ((List.replicate 71 arpChunk).flatten))
      (arp143head 39)).locked = true := by
  rw [c7after142]
  exact ⟨by decide, by decide⟩

/-- C7 amended: the ARP bucket increments once per fired ARP byte
(`is_arp` bytes 14–41 of each 42-byte minimal frame, so 28 per frame,
not once per frame); no leak interval elapses within the first 5,965
cycles, so after 142 frames the bucket holds 3,976 with the core
unlocked and the rate latch clear, and the 143rd frame crosses the
4,000-token burst limit at its byte 38: one cycle later
`violation_arp_rate = 1` and, in ingress mode, `locked = 1`. -/
theorem c7_arp_bucket_per_byte :
    (run defCfg idleState (frameInputs false arpFrameBytes false)).arp_bucket = 28 ∧
    run defCfg idleState ((List.replicate 71 arpChunk).flatten) = c7Boundary 71 ∧
    (c7Boundary 71).arp_bucket = 3976 ∧
    (c7Boundary 71).locked = false ∧
    (c7Boundary 71).violation_arp_rate = false ∧
    (run defCfg (c7Boundary 71) (arp143head 38)).locked = false ∧
    (run defCfg (c7Boundary 71) (arp143head 38)).violation_arp_rate = false ∧
    (run defCfg (c7Boundary 71) (arp143head 39)).locked = true ∧
    (run defCfg (c7Boundary 71) (arp143head 39)).violation_arp_rate = true ∧
    (run defCfg (c7Boundary 71) (arp143head 39)).arp_bucket = 4001 :=
  ⟨by decide, c7after142, by decide, by decide, by decide, by decide, by decide,
   by decide, by decide, by decide⟩

end Airlock
